import Mathlib

/-!
Verification of the lifxlan-mcp-server selector / color-codec / dispatcher
logic (source: src/unnamed/part_002).  JavaScript numbers are modelled as
exact rationals; a JavaScript NaN channel is modelled as `none`.
-/

namespace LifxMcp

/-! JavaScript numeric primitives used by the source. -/

/-- Model of JavaScript `Math.round`: rounds half toward positive infinity. -/
def jsRound (q : ℚ) : ℤ := ⌊q + 1 / 2⌋

/-- Truncation toward zero, as used by the JavaScript `%` remainder. -/
def ratTrunc (q : ℚ) : ℤ := if 0 ≤ q then ⌊q⌋ else ⌈q⌉

/-- Model of the JavaScript `%` remainder on numbers (sign of the dividend). -/
def jsRem (a b : ℚ) : ℚ := a - b * (ratTrunc (a / b) : ℚ)

/-- JavaScript truthiness of a possibly-absent number: `undefined`, `0`
(and `NaN`, which cannot arise for the inputs modelled here) are falsy. -/
def jsTruthy : Option ℚ → Bool
  | none => false
  | some q => q != 0

/-! Model of `parseInt(s, 16)` as used on the 2-character substrings of a
hex color string: an optional sign followed by the longest prefix of hex
digits; `none` models a NaN result. -/

/-- Value of one hex digit, by ASCII code (0-9, a-f, A-F). -/
def hexDigit? (c : Char) : Option ℕ :=
  if 48 ≤ c.toNat ∧ c.toNat ≤ 57 then some (c.toNat - 48)
  else if 97 ≤ c.toNat ∧ c.toNat ≤ 102 then some (c.toNat - 97 + 10)
  else if 65 ≤ c.toNat ∧ c.toNat ≤ 70 then some (c.toNat - 65 + 10)
  else none

def isHexDigitChar (c : Char) : Bool := (hexDigit? c).isSome

/-- Accumulate the longest prefix of hex digits; `none` when no digit was
consumed (`parseInt` returns NaN there). -/
def hexDigitsVal : List Char → ℕ → Bool → Option ℕ
  | [], acc, seen => if seen then some acc else none
  | c :: rest, acc, seen =>
    match hexDigit? c with
    | some d => hexDigitsVal rest (acc * 16 + d) true
    | none => if seen then some acc else none

/-- `parseInt(s, 16)`: an optional sign followed by the longest prefix of
hex digits.  The whitespace-skip and `0x`-prefix cases of the full builtin
are not modelled; a slice containing them (such as the `0x` of `#0x0000`)
lies outside the hypotheses of every theorem below. -/
def jsParseIntHex (s : String) : Option ℤ :=
  match s.data with
  | [] => none
  | c :: rest =>
    if c = '-' then (hexDigitsVal rest 0 false).map (fun n => -(n : ℤ))
    else if c = '+' then (hexDigitsVal rest 0 false).map (fun n => (n : ℤ))
    else (hexDigitsVal (c :: rest) 0 false).map (fun n => (n : ℤ))

/-! The color codec (`parseColor`, part_002 lines 111-182). -/

/-- One character of `toLowerCase`: ASCII letters, plus U+212A KELVIN SIGN
(code 8490), the only character beyond ASCII whose JavaScript lowercase is
a plain ASCII letter.  Every other character is kept as is: the lowercased
string is used only to index the color table and, through the prototype
chain, the object's inherited keys, all of which are spelled with a-z and
underscores, and no other character lowercases into that alphabet (U+0130
expands to a two-character sequence with a combining dot, which can never
equal such a key), so the branch `parseColor` takes is unaffected. -/
def jsLowerChar (c : Char) : Char :=
  if 65 ≤ c.toNat ∧ c.toNat ≤ 90 then Char.ofNat (c.toNat + 32)
  else if c.toNat = 8490 then 'k'
  else c

/-- Model of `color.toLowerCase()`. -/
def jsToLowerCase (s : String) : String := String.mk (s.data.map jsLowerChar)

/-- Model of `color.startsWith('#')`. -/
def startsWithHash (s : String) : Bool :=
  match s.data with
  | '#' :: _ => true
  | _ => false

/-- An HSBK quad as returned by `parseColor`; each channel is `none` when
the JavaScript computation would produce NaN. -/
structure HSBK where
  hue : Option ℚ
  saturation : Option ℚ
  brightness : Option ℚ
  kelvin : Option ℚ
deriving Repr, DecidableEq

/-- The possible JavaScript values fed to `parseColor`: a string, an object
with optional numeric channel fields, `null`, or any other non-string
non-object value (number, boolean, undefined). -/
inductive ColorInput where
  | str (s : String)
  | obj (hue saturation brightness kelvin : Option ℚ)
  | null
  | other
deriving Repr, DecidableEq

/-- The fixed named-color table of `parseColor`. -/
def namedColors : List (String × (ℚ × ℚ × ℚ × ℚ)) :=
  [ ("red", (0, 65535, 65535, 3500)),
    ("green", (21845, 65535, 65535, 3500)),
    ("blue", (43690, 65535, 65535, 3500)),
    ("yellow", (10922, 65535, 65535, 3500)),
    ("cyan", (32768, 65535, 65535, 3500)),
    ("magenta", (54613, 65535, 65535, 3500)),
    ("orange", (5461, 65535, 65535, 3500)),
    ("purple", (49151, 65535, 65535, 3500)),
    ("pink", (54613, 32768, 65535, 3500)),
    ("white", (0, 0, 65535, 3500)),
    ("warm_white", (0, 0, 65535, 2700)),
    ("cool_white", (0, 0, 65535, 6500)) ]

/-- RGB bytes to the LIFX hue/saturation/brightness scale: the six-sector
max/min/diff conversion of `parseColor`'s hex branch, with both
`Math.round` steps and the `hue < 0` wrap. -/
def rgbToLifx (ri gi bi : ℤ) : ℤ × ℤ × ℤ :=
  let r : ℚ := (ri : ℚ) / 255
  let g : ℚ := (gi : ℚ) / 255
  let b : ℚ := (bi : ℚ) / 255
  let mx := max r (max g b)
  let mn := min r (min g b)
  let diff := mx - mn
  let hue0 : ℚ :=
    if diff = 0 then 0
    else if mx = r then jsRem ((g - b) / diff) 6
    else if mx = g then (b - r) / diff + 2
    else (r - g) / diff + 4
  let hue1 : ℤ := jsRound (hue0 * 60)
  let hue2 : ℤ := if hue1 < 0 then hue1 + 360 else hue1
  let sat : ℚ := if mx = 0 then 0 else diff / mx
  (jsRound ((hue2 : ℚ) * (18204 / 100)), jsRound (sat * 65535), jsRound (mx * 65535))

/-- The hex branch of `parseColor`: `color.substring(1)` then three
2-character `parseInt(_, 16)` reads.  When any read is NaN, every
arithmetic step of the RGB-to-HSB conversion propagates NaN, so hue,
saturation and brightness are all NaN while kelvin stays 3500. -/
def parseColorHex (color : String) : HSBK :=
  let hex : List Char := color.data.drop 1
  let rP := jsParseIntHex (String.mk (hex.take 2))
  let gP := jsParseIntHex (String.mk ((hex.drop 2).take 2))
  let bP := jsParseIntHex (String.mk ((hex.drop 4).take 2))
  match rP, gP, bP with
  | some ri, some gi, some bi =>
    let hsb := rgbToLifx ri gi bi
    { hue := some (hsb.1 : ℚ), saturation := some (hsb.2.1 : ℚ),
      brightness := some (hsb.2.2 : ℚ), kelvin := some 3500 }
  | _, _, _ =>
    { hue := none, saturation := none, brightness := none, kelvin := some 3500 }

/-- `parseColor` (part_002 lines 111-182): named-color lookup, hex strings,
structured objects; anything else throws `Invalid color format`.  The
source's `namedColors[colorKey]` is a property access on an object
literal, so it also reaches the inherited prototype keys: the truthiness
test passes for the two all-lowercase ones, `constructor` and the proto
accessor, and the tuple destructuring of that non-array value then throws
a TypeError instead of the invalid-color-format error.  The camel-case
inherited keys are unreachable because `colorKey` is lowercased. -/
def parseColor : ColorInput → Except String HSBK
  | .str color =>
    let colorKey := jsToLowerCase color
    match namedColors.lookup colorKey with
    | some q => .ok { hue := some q.1, saturation := some q.2.1,
                      brightness := some q.2.2.1, kelvin := some q.2.2.2 }
    | none =>
      if colorKey = "constructor" ∨ colorKey = "__proto__" then
        .error "TypeError: namedColors[colorKey] is not iterable"
      else if startsWithHash color then .ok (parseColorHex color)
      else .error "Invalid color format"
  | .obj hue saturation brightness kelvin =>
    .ok { hue := some (if jsTruthy hue then ((jsRound (hue.getD 0 * (18204 / 100)) : ℤ) : ℚ) else 0),
          saturation := some (if jsTruthy saturation then ((jsRound (saturation.getD 0 * 65535) : ℤ) : ℚ) else 65535),
          brightness := some (if jsTruthy brightness then ((jsRound (brightness.getD 0 * 65535) : ℤ) : ℚ) else 65535),
          kelvin := some (if jsTruthy kelvin then kelvin.getD 0 else 3500) }
  | .null => .error "Invalid color format"
  | .other => .error "Invalid color format"

/-- The declared channel ranges of the spec's HSBK data model. -/
def chanIn (c : Option ℚ) (lo hi : ℚ) : Bool :=
  match c with
  | none => false
  | some q => lo ≤ q ∧ q ≤ hi

/-- All four channels within their declared ranges. -/
def channelsInRange (h : HSBK) : Bool :=
  chanIn h.hue 0 65535 && chanIn h.saturation 0 65535 &&
    chanIn h.brightness 0 65535 && chanIn h.kelvin 1500 9000

/-- The input shapes the claim calls accepted: a known color name, a hex
color string (starts with a hash), or a structured object. -/
def acceptedShape : ColorInput → Bool
  | .str s => (namedColors.lookup (jsToLowerCase s)).isSome || startsWithHash s
  | .obj _ _ _ _ => true
  | .null => false
  | .other => false

/-- Inputs whose lowercase form indexes an inherited key of the object
literal rather than one of its own entries. -/
def hitsProtoKey : ColorInput → Bool
  | .str s => jsToLowerCase s = "constructor" || jsToLowerCase s = "__proto__"
  | _ => false

/-- A string of shape hash followed by six hex digits. -/
def hexShapeOk (s : String) : Bool :=
  match s.data with
  | '#' :: d1 :: d2 :: d3 :: d4 :: d5 :: d6 :: _ =>
    [d1, d2, d3, d4, d5, d6].all isHexDigitChar
  | _ => false

deriving instance DecidableEq for Except

/-! Selector parsing (`parseSelector`, part_002 lines 97-109). -/

/-- A parsed selector: `{ type, value }`; `value` is `none` when the source
object carries no `value` field (the `all` case). -/
structure Selector where
  type : String
  value : Option String
deriving Repr, DecidableEq

/-- `selector.split(':')` for the one-character separator, on the
character list. -/
def splitColon : List Char → List (List Char)
  | [] => [[]]
  | c :: rest =>
    if c = ':' then [] :: splitColon rest
    else
      match splitColon rest with
      | [] => [[c]]
      | p :: ps => (c :: p) :: ps

/-- `selector.includes(':')`. -/
def includesColon (s : String) : Bool := s.data.any (fun c => c = ':')

/-- `parseSelector(selector = 'all')`: the absent argument (`none`) takes
the default; `[type, value]` destructures the first two split parts. -/
def parseSelector (sel : Option String) : Selector :=
  let selector := sel.getD "all"
  if selector = "all" then { type := "all", value := none }
  else if includesColon selector then
    let parts := splitColon selector.data
    { type := String.mk (parts.headD []), value := some (String.mk (parts.getD 1 [])) }
  else { type := "serial", value := some selector }

/-! The device registry snapshot and selector resolution
(`getMatchingDevices`, part_002 lines 184-220). -/

/-- A device color state as returned by a GetColor query (lifxlan's
LightState: integer channels plus a power level). -/
structure Color where
  hue : ℤ
  saturation : ℤ
  brightness : ℤ
  kelvin : ℤ
  power : ℤ
deriving Repr, DecidableEq

/-- Group state: only the label takes part in selector matching (the real
StateGroup also carries a raw identifier and timestamp). -/
structure StateGroup where
  label : String
deriving Repr, DecidableEq

/-- Location state object; an object value is never strictly equal to a
selector string, so only its presence matters for matching. -/
structure StateLocation where
  label : String
deriving Repr, DecidableEq

/-- The per-serial mutable attribute bag of the registry (part_002 lines
17-24); the unused capability map is not modelled. -/
structure DeviceInfo where
  label : Option String := none
  location : Option StateLocation := none
  group : Option StateGroup := none
  power : Option String := none
  color : Option Color := none
deriving Repr, DecidableEq

/-- A live device handle from `devices.get` (address and port are not used
by the dispatch logic). -/
structure Device where
  serialNumber : String
deriving Repr, DecidableEq

/-- One element of `matchingDevices`: `{ device, serialNumber, info }`. -/
structure MatchEntry where
  device : Device
  serialNumber : String
  info : DeviceInfo
deriving Repr, DecidableEq

/-- The `switch (parsed.type)` of `getMatchingDevices`.  JavaScript strict
equality of possibly-absent strings is `Option` equality; a `StateLocation`
object compares equal to `parsed.value` only when both sides are
`undefined`; an unrecognized type leaves `matches` false. -/
def selectorMatches (parsed : Selector) (serialNumber : String) (info : DeviceInfo) : Bool :=
  if parsed.type = "all" then true
  else if parsed.type = "serial" then some serialNumber = parsed.value
  else if parsed.type = "label" then info.label = parsed.value
  else if parsed.type = "group" then info.group.map StateGroup.label = parsed.value
  else if parsed.type = "location" then info.location = none ∧ parsed.value = none
  else false

/-- `getMatchingDevices(selector)` over a registry snapshot (iteration in
map order), parameterized by the outcome of each `devices.get` call: a
matching serial whose lookup rejects is dropped with a warning. -/
def getMatchingDevices (devGet : String → Option Device)
    (registry : List (String × DeviceInfo)) (selector : String) : List MatchEntry :=
  let parsed := parseSelector (some selector)
  registry.filterMap (fun p =>
    if selectorMatches parsed p.1 p.2 then
      (devGet p.1).map (fun d => { device := d, serialNumber := p.1, info := p.2 })
    else none)

/-! The command dispatcher: the per-device result construction of the four
batch tool handlers (part_002 lines 373-485).  Each remote call is
modelled by an oracle from the device serial to that call's outcome in
this run; a rejection carries the `String(error)` text. -/

/-- A per-device outcome object; absent JSON fields are `none`. -/
structure CommandResult where
  serialNumber : String
  success : Bool
  power : Option String := none
  brightness : Option ℚ := none
  color : Option HSBK := none
  previous_state : Option String := none
  new_state : Option String := none
  error : Option String := none
deriving Repr, DecidableEq

/-- A SetColorCommand as sent on the wire by the brightness handler. -/
structure SetColorCmd where
  hue : ℤ
  saturation : ℤ
  brightness : ℤ
  kelvin : ℤ
  duration : ℤ
deriving Repr, DecidableEq

/-- `lifx_set_lights_power` (lines 373-393): per device, send SetPower and
report `{serialNumber, success, power}` or `{serialNumber, success:false,
error}`.  The handler also caches `info.power` on success; that registry
write is outside the result list modelled here. -/
def setLightsPowerResults (send : String → Except String Unit) (power : String)
    (matching : List MatchEntry) : List CommandResult :=
  matching.map (fun e =>
    match send e.serialNumber with
    | .ok _ => { serialNumber := e.serialNumber, success := true, power := some power }
    | .error err => { serialNumber := e.serialNumber, success := false, error := some err })

/-- The per-device step of `lifx_set_brightness` (lines 399-417): read the
current color; on success send SetColor with the read hue/saturation/kelvin,
the scaled brightness and the millisecond duration.  The second component
collects the SetColor commands actually issued for the device. -/
def setBrightnessStep (getColorRes : Except String Color) (setColorRes : Except String Unit)
    (serialNumber : String) (brightness duration : ℚ) : CommandResult × List SetColorCmd :=
  match getColorRes with
  | .error err => ({ serialNumber := serialNumber, success := false, error := some err }, [])
  | .ok currentColor =>
    let durationMs := jsRound (duration * 1000)
    let brightnessValue := jsRound (brightness * 65535)
    let cmd : SetColorCmd :=
      { hue := currentColor.hue, saturation := currentColor.saturation,
        brightness := brightnessValue, kelvin := currentColor.kelvin, duration := durationMs }
    match setColorRes with
    | .ok _ => ({ serialNumber := serialNumber, success := true, brightness := some brightness }, [cmd])
    | .error err => ({ serialNumber := serialNumber, success := false, error := some err }, [cmd])

/-- `lifx_set_brightness` over the whole batch (lines 395-425). -/
def setBrightnessResults (getColor : String → Except String Color)
    (setColorSend : String → Except String Unit) (brightness duration : ℚ)
    (matching : List MatchEntry) : List (CommandResult × List SetColorCmd) :=
  matching.map (fun e =>
    setBrightnessStep (getColor e.serialNumber) (setColorSend e.serialNumber)
      e.serialNumber brightness duration)

/-- `lifx_set_color` (lines 427-455): the codec result is computed once for
the batch; per device, send SetColor and echo the parsed color. -/
def setColorResults (send : String → Except String Unit) (parsedColor : HSBK)
    (matching : List MatchEntry) : List CommandResult :=
  matching.map (fun e =>
    match send e.serialNumber with
    | .ok _ => { serialNumber := e.serialNumber, success := true, color := some parsedColor }
    | .error err => { serialNumber := e.serialNumber, success := false, error := some err })

/-- The per-device step of `lifx_toggle_lights` (lines 461-477): read the
power level, negate, write back; a read failure skips the write. -/
def toggleStep (getPowerRes : Except String ℤ) (setPowerRes : Except String Unit)
    (serialNumber : String) : CommandResult :=
  match getPowerRes with
  | .error err => { serialNumber := serialNumber, success := false, error := some err }
  | .ok currentPower =>
    match setPowerRes with
    | .error err => { serialNumber := serialNumber, success := false, error := some err }
    | .ok _ =>
      { serialNumber := serialNumber, success := true,
        previous_state := some (if currentPower > 0 then "on" else "off"),
        new_state := some (if currentPower = 0 then "on" else "off") }

/-- `lifx_toggle_lights` over the whole batch (lines 457-485). -/
def toggleResults (getPower : String → Except String ℤ)
    (setPower : String → Except String Unit) (matching : List MatchEntry) : List CommandResult :=
  matching.map (fun e => toggleStep (getPower e.serialNumber) (setPower e.serialNumber) e.serialNumber)

/-! Arithmetic facts about the JavaScript primitives. -/

theorem jsRound_le {q : ℚ} {z : ℤ} (h : q ≤ (z : ℚ)) : jsRound q ≤ z := by
  have h2 : ⌊q + 1 / 2⌋ < z + 1 := Int.floor_lt.mpr (by push_cast; linarith)
  unfold jsRound
  omega

theorem jsRound_ge {q : ℚ} {z : ℤ} (h : (z : ℚ) ≤ q) : z ≤ jsRound q := by
  unfold jsRound
  exact Int.le_floor.mpr (by linarith)

theorem jsRound_intCast (z : ℤ) : jsRound (z : ℚ) = z := by
  have h1 : jsRound (z : ℚ) ≤ z := jsRound_le le_rfl
  have h2 : z ≤ jsRound (z : ℚ) := jsRound_ge le_rfl
  omega

theorem ratTrunc_eq_zero {q : ℚ} (h1 : -1 < q) (h2 : q < 1) : ratTrunc q = 0 := by
  unfold ratTrunc
  split
  · exact Int.floor_eq_zero_iff.mpr ⟨by assumption, h2⟩
  · exact Int.ceil_eq_zero_iff.mpr ⟨h1, by linarith [not_le.mp (by assumption)]⟩

theorem jsRem_small {a : ℚ} (h1 : -1 ≤ a) (h2 : a ≤ 1) : jsRem a 6 = a := by
  unfold jsRem
  have ht : ratTrunc (a / 6) = 0 := by
    apply ratTrunc_eq_zero
    · rw [lt_div_iff₀ (by norm_num : (0:ℚ) < 6)]
      linarith
    · rw [div_lt_iff₀ (by norm_num : (0:ℚ) < 6)]
      linarith
  rw [ht]
  push_cast
  ring

/-- The six-sector conversion keeps every output channel inside the LIFX
scale as long as the three byte values are within 0..255. -/
theorem rgbToLifx_range {ri gi bi : ℤ}
    (hr0 : 0 ≤ ri) (hr1 : ri ≤ 255) (hg0 : 0 ≤ gi) (hg1 : gi ≤ 255)
    (hb0 : 0 ≤ bi) (hb1 : bi ≤ 255) :
    0 ≤ (rgbToLifx ri gi bi).1 ∧ (rgbToLifx ri gi bi).1 ≤ 65535 ∧
    0 ≤ (rgbToLifx ri gi bi).2.1 ∧ (rgbToLifx ri gi bi).2.1 ≤ 65535 ∧
    0 ≤ (rgbToLifx ri gi bi).2.2 ∧ (rgbToLifx ri gi bi).2.2 ≤ 65535 := by
  simp only [rgbToLifx]
  set r : ℚ := (ri : ℚ) / 255 with hrdef
  set g : ℚ := (gi : ℚ) / 255 with hgdef
  set b : ℚ := (bi : ℚ) / 255 with hbdef
  have hr01 : 0 ≤ r ∧ r ≤ 1 := by
    constructor
    · apply div_nonneg _ (by norm_num)
      exact_mod_cast hr0
    · rw [hrdef, div_le_one (by norm_num)]
      exact_mod_cast hr1
  have hg01 : 0 ≤ g ∧ g ≤ 1 := by
    constructor
    · apply div_nonneg _ (by norm_num)
      exact_mod_cast hg0
    · rw [hgdef, div_le_one (by norm_num)]
      exact_mod_cast hg1
  have hb01 : 0 ≤ b ∧ b ≤ 1 := by
    constructor
    · apply div_nonneg _ (by norm_num)
      exact_mod_cast hb0
    · rw [hbdef, div_le_one (by norm_num)]
      exact_mod_cast hb1
  set mx := max r (max g b) with hmxdef
  set mn := min r (min g b) with hmndef
  have hrmx : r ≤ mx := le_max_left _ _
  have hgmx : g ≤ mx := le_trans (le_max_left g b) (le_max_right _ _)
  have hbmx : b ≤ mx := le_trans (le_max_right g b) (le_max_right _ _)
  have hmnr : mn ≤ r := min_le_left _ _
  have hmng : mn ≤ g := le_trans (min_le_right _ _) (min_le_left g b)
  have hmnb : mn ≤ b := le_trans (min_le_right _ _) (min_le_right g b)
  have hmx0 : 0 ≤ mx := le_trans hr01.1 hrmx
  have hmx1 : mx ≤ 1 := max_le hr01.2 (max_le hg01.2 hb01.2)
  have hmn0 : 0 ≤ mn := le_min hr01.1 (le_min hg01.1 hb01.1)
  set diff := mx - mn with hdiffdef
  have hdiff0 : 0 ≤ diff := by rw [hdiffdef]; linarith
  set hue0 : ℚ := (if diff = 0 then (0 : ℚ)
    else if mx = r then jsRem ((g - b) / diff) 6
    else if mx = g then (b - r) / diff + 2
    else (r - g) / diff + 4) with hhue0def
  have hue0_bounds : -1 ≤ hue0 ∧ hue0 ≤ 5 := by
    rw [hhue0def]
    split
    · norm_num
    · have hdpos : 0 < diff := lt_of_le_of_ne hdiff0 (Ne.symm (by assumption))
      have hquot : ∀ x y : ℚ, mn ≤ x → x ≤ mx → mn ≤ y → y ≤ mx →
          -1 ≤ (x - y) / diff ∧ (x - y) / diff ≤ 1 := by
        intro x y h1 h2 h3 h4
        constructor
        · rw [le_div_iff₀ hdpos]
          rw [hdiffdef]
          linarith
        · rw [div_le_one hdpos]
          rw [hdiffdef]
          linarith
      split
      · have hq := hquot g b hmng hgmx hmnb hbmx
        rw [jsRem_small hq.1 hq.2]
        constructor
        · exact hq.1
        · linarith [hq.2]
      · split
        · have hq := hquot b r hmnb hbmx hmnr hrmx
          constructor
          · linarith [hq.1]
          · linarith [hq.2]
        · have hq := hquot r g hmnr hrmx hmng hgmx
          constructor
          · linarith [hq.1]
          · linarith [hq.2]
  have hue1_lb : -60 ≤ jsRound (hue0 * 60) := jsRound_ge (by push_cast; linarith [hue0_bounds.1])
  have hue1_ub : jsRound (hue0 * 60) ≤ 300 := jsRound_le (by push_cast; linarith [hue0_bounds.2])
  set hue1 := jsRound (hue0 * 60) with hhue1def
  set hue2 := (if hue1 < 0 then hue1 + 360 else hue1) with hhue2def
  have hue2_bounds : 0 ≤ hue2 ∧ hue2 ≤ 360 := by
    rw [hhue2def]
    split
    · omega
    · omega
  set sat : ℚ := (if mx = 0 then (0 : ℚ) else diff / mx) with hsatdef
  have sat_bounds : 0 ≤ sat ∧ sat ≤ 1 := by
    rw [hsatdef]
    split
    · norm_num
    · have hmxpos : 0 < mx := lt_of_le_of_ne hmx0 (Ne.symm (by assumption))
      constructor
      · exact div_nonneg hdiff0 hmx0
      · rw [div_le_one hmxpos, hdiffdef]
        linarith
  have h0 : (0 : ℚ) ≤ (hue2 : ℚ) := by exact_mod_cast hue2_bounds.1
  have h360 : (hue2 : ℚ) ≤ 360 := by exact_mod_cast hue2_bounds.2
  refine ⟨?_, ?_, ?_, ?_, ?_, ?_⟩
  · apply jsRound_ge
    push_cast
    linarith
  · apply jsRound_le
    push_cast
    linarith
  · apply jsRound_ge
    push_cast
    linarith [sat_bounds.1]
  · apply jsRound_le
    push_cast
    linarith [sat_bounds.2]
  · apply jsRound_ge
    push_cast
    linarith [hmx0]
  · apply jsRound_le
    push_cast
    linarith [hmx1]

/-! Facts about the codec building blocks. -/

theorem string_data_mk (l : List Char) : (String.mk l).data = l := rfl

theorem hexDigit_le {c : Char} {v : ℕ} (h : hexDigit? c = some v) : v ≤ 15 := by
  unfold hexDigit? at h
  split_ifs at h <;> (injection h with h'; omega)

theorem hexDigit_ne_dash {c : Char} {v : ℕ} (h : hexDigit? c = some v) :
    c ≠ '-' ∧ c ≠ '+' := by
  constructor
  · rintro rfl
    rw [(by decide : hexDigit? '-' = none)] at h
    exact Option.noConfusion h
  · rintro rfl
    rw [(by decide : hexDigit? '+' = none)] at h
    exact Option.noConfusion h

theorem jsParseIntHex_pair {c1 c2 : Char} {v1 v2 : ℕ}
    (h1 : hexDigit? c1 = some v1) (h2 : hexDigit? c2 = some v2) :
    jsParseIntHex (String.mk [c1, c2]) = some ((v1 * 16 + v2 : ℕ) : ℤ) := by
  have hne := hexDigit_ne_dash h1
  simp only [jsParseIntHex]
  rw [if_neg hne.1, if_neg hne.2]
  simp [hexDigitsVal, h1, h2]

theorem namedColors_lookup_range {k : String} {v : ℚ × ℚ × ℚ × ℚ}
    (h : namedColors.lookup k = some v) :
    0 ≤ v.1 ∧ v.1 ≤ 65535 ∧ 0 ≤ v.2.1 ∧ v.2.1 ≤ 65535 ∧
      0 ≤ v.2.2.1 ∧ v.2.2.1 ≤ 65535 ∧ 1500 ≤ v.2.2.2 ∧ v.2.2.2 ≤ 9000 := by
  simp only [namedColors, List.lookup] at h
  repeat' split at h
  all_goals simp_all
  all_goals (obtain rfl := h; norm_num)

/-- A hash-led string never lowercases to one of the inherited keys. -/
theorem startsWithHash_not_proto {s : String} (h : startsWithHash s = true) :
    ¬(jsToLowerCase s = "constructor" ∨ jsToLowerCase s = "__proto__") := by
  unfold startsWithHash at h
  split at h
  case h_2 => cases h
  case h_1 tail heq =>
    have hlc : jsLowerChar '#' = '#' := by decide
    have hdata : (jsToLowerCase s).data = '#' :: tail.map jsLowerChar := by
      simp [jsToLowerCase, string_data_mk, heq, hlc]
    have hmem : '#' ∈ (jsToLowerCase s).data := by
      rw [hdata]
      exact List.mem_cons_self _ _
    rintro (hc | hc) <;> (rw [hc] at hmem; revert hmem; decide)

/-- C6: the named color red parses to hue 0, saturation 65535, brightness
65535, kelvin 3500 — also when spelled in upper case — and the hex string
with a full red byte parses to the same hue, saturation and brightness. -/
theorem c6_red_named_and_hex :
    parseColor (.str "red") =
      .ok { hue := some 0, saturation := some 65535, brightness := some 65535, kelvin := some 3500 } ∧
    parseColor (.str "RED") =
      .ok { hue := some 0, saturation := some 65535, brightness := some 65535, kelvin := some 3500 } ∧
    parseColor (.str "#FF0000") =
      .ok { hue := some 0, saturation := some 65535, brightness := some 65535, kelvin := some 3500 } := by
  refine ⟨by decide, by decide, ?_⟩
  have hlk : namedColors.lookup (jsToLowerCase "#FF0000") = none := by decide
  have hsw : startsWithHash "#FF0000" = true := by decide
  have hnp : ¬(jsToLowerCase "#FF0000" = "constructor" ∨
      jsToLowerCase "#FF0000" = "__proto__") := by decide
  have hr : jsParseIntHex "FF" = some 255 := by decide
  have hb : jsParseIntHex "00" = some 0 := by decide
  have hrgb : rgbToLifx 255 0 0 = (0, 65535, 65535) := by
    norm_num [rgbToLifx, jsRound, jsRem, ratTrunc, max_def, min_def]
  simp [parseColor, hlk, hnp, hsw, parseColorHex, hr, hb, hrgb]

/-- C5 counterexample: the structured object with hue 65535 — accepted by
the codec and within the tool schema's declared hue bound — produces hue
11929991, far outside the declared range. -/
theorem c5_counterexample :
    parseColor (.obj (some 65535) none none none) =
      .ok { hue := some 11929991, saturation := some 65535, brightness := some 65535, kelvin := some 3500 } ∧
    channelsInRange ({ hue := some 11929991, saturation := some 65535,
                       brightness := some 65535, kelvin := some 3500 } : HSBK) = false := by
  constructor
  · have hj : jsRound ((65535 : ℚ) * (18204 / 100)) = 11929991 := by
      norm_num [jsRound]
    simp [parseColor, jsTruthy, hj]
  · norm_num [channelsInRange, chanIn]

/-- C5 (amended): every named-color input and every hex input consisting of
a hash and six hex digits yields channels inside the declared ranges; the
structured-object path is exempt, as the counterexample shows. -/
theorem c5_string_inputs_in_range (s : String)
    (h : (namedColors.lookup (jsToLowerCase s)).isSome = true ∨ hexShapeOk s = true) :
    ∃ hsbk, parseColor (.str s) = .ok hsbk ∧ channelsInRange hsbk = true := by
  cases hlk : namedColors.lookup (jsToLowerCase s) with
  | some v =>
    refine ⟨{ hue := some v.1, saturation := some v.2.1,
              brightness := some v.2.2.1, kelvin := some v.2.2.2 }, ?_, ?_⟩
    · simp [parseColor, hlk]
    · have hr := namedColors_lookup_range hlk
      simp only [channelsInRange, chanIn, Bool.and_eq_true, decide_eq_true_eq]
      refine ⟨⟨⟨⟨hr.1, hr.2.1⟩, ⟨hr.2.2.1, hr.2.2.2.1⟩⟩, ⟨hr.2.2.2.2.1, hr.2.2.2.2.2.1⟩⟩,
        ⟨hr.2.2.2.2.2.2.1, hr.2.2.2.2.2.2.2⟩⟩
  | none =>
    have hhex : hexShapeOk s = true := by
      rcases h with h | h
      · rw [hlk] at h
        cases h
      · exact h
    unfold hexShapeOk at hhex
    split at hhex
    case h_2 => cases hhex
    case h_1 d1 d2 d3 d4 d5 d6 rest heq =>
      simp only [List.all_cons, List.all_nil, Bool.and_eq_true, isHexDigitChar,
        Option.isSome_iff_exists] at hhex
      obtain ⟨⟨w1, hw1⟩, ⟨w2, hw2⟩, ⟨w3, hw3⟩, ⟨w4, hw4⟩, ⟨w5, hw5⟩, ⟨w6, hw6⟩, -⟩ := hhex
      have hsw : startsWithHash s = true := by
        unfold startsWithHash
        rw [heq]
        rfl
      have hr1 : jsParseIntHex (String.mk [d1, d2]) = some ((w1 * 16 + w2 : ℕ) : ℤ) :=
        jsParseIntHex_pair hw1 hw2
      have hr2 : jsParseIntHex (String.mk [d3, d4]) = some ((w3 * 16 + w4 : ℕ) : ℤ) :=
        jsParseIntHex_pair hw3 hw4
      have hr3 : jsParseIntHex (String.mk [d5, d6]) = some ((w5 * 16 + w6 : ℕ) : ℤ) :=
        jsParseIntHex_pair hw5 hw6
      have hb1 : ((w1 * 16 + w2 : ℕ) : ℤ) ≤ 255 := by
        have := hexDigit_le hw1
        have := hexDigit_le hw2
        omega
      have hb2 : ((w3 * 16 + w4 : ℕ) : ℤ) ≤ 255 := by
        have := hexDigit_le hw3
        have := hexDigit_le hw4
        omega
      have hb3 : ((w5 * 16 + w6 : ℕ) : ℤ) ≤ 255 := by
        have := hexDigit_le hw5
        have := hexDigit_le hw6
        omega
      have hrange := @rgbToLifx_range ((w1 * 16 + w2 : ℕ) : ℤ) ((w3 * 16 + w4 : ℕ) : ℤ)
        ((w5 * 16 + w6 : ℕ) : ℤ) (by positivity) hb1 (by positivity) hb2 (by positivity) hb3
      have e0 : s.data.drop 1 = d1 :: d2 :: d3 :: d4 :: d5 :: d6 :: rest := by
        rw [heq]
        rfl
      have t1 : (d1 :: d2 :: d3 :: d4 :: d5 :: d6 :: rest).take 2 = [d1, d2] := rfl
      have t2 : ((d1 :: d2 :: d3 :: d4 :: d5 :: d6 :: rest).drop 2).take 2 = [d3, d4] := rfl
      have t3 : ((d1 :: d2 :: d3 :: d4 :: d5 :: d6 :: rest).drop 4).take 2 = [d5, d6] := rfl
      have hph : parseColorHex s =
          { hue := some ((rgbToLifx ((w1 * 16 + w2 : ℕ) : ℤ) ((w3 * 16 + w4 : ℕ) : ℤ)
                ((w5 * 16 + w6 : ℕ) : ℤ)).1 : ℚ),
            saturation := some ((rgbToLifx ((w1 * 16 + w2 : ℕ) : ℤ) ((w3 * 16 + w4 : ℕ) : ℤ)
                ((w5 * 16 + w6 : ℕ) : ℤ)).2.1 : ℚ),
            brightness := some ((rgbToLifx ((w1 * 16 + w2 : ℕ) : ℤ) ((w3 * 16 + w4 : ℕ) : ℤ)
                ((w5 * 16 + w6 : ℕ) : ℤ)).2.2 : ℚ),
            kelvin := some 3500 } := by
        simp only [parseColorHex, e0, t1, t2, t3, hr1, hr2, hr3]
      have hnp := startsWithHash_not_proto hsw
      refine ⟨parseColorHex s, ?_, ?_⟩
      · simp [parseColor, hlk, hnp, hsw]
      · rw [hph]
        simp only [channelsInRange, chanIn, Bool.and_eq_true, decide_eq_true_eq]
        refine ⟨⟨⟨⟨?_, ?_⟩, ⟨?_, ?_⟩⟩, ⟨?_, ?_⟩⟩, by norm_num⟩
        · exact_mod_cast hrange.1
        · exact_mod_cast hrange.2.1
        · exact_mod_cast hrange.2.2.1
        · exact_mod_cast hrange.2.2.2.1
        · exact_mod_cast hrange.2.2.2.2.1
        · exact_mod_cast hrange.2.2.2.2.2

/-- C5 amended witness at a concrete six-digit hex string. -/
theorem c5_string_inputs_in_range_witness :
    ∃ hsbk, parseColor (.str "#0A1B2C") = .ok hsbk ∧ channelsInRange hsbk = true :=
  c5_string_inputs_in_range "#0A1B2C" (Or.inr (by decide))

/-- C7 counterexample: the string constructor names no color, is not a
hash-led hex string and is no object, yet the codec does not fail with the
invalid color format error — the lookup reaches the object's inherited
constructor property and the destructuring throws a TypeError. -/
theorem c7_counterexample :
    acceptedShape (.str "constructor") = false ∧
    parseColor (.str "constructor") =
      .error "TypeError: namedColors[colorKey] is not iterable" ∧
    parseColor (.str "constructor") ≠ .error "Invalid color format" := by
  refine ⟨by decide, by decide, by decide⟩

/-- C7 (amended): every accepted shape — known color name matched on the
JavaScript lowercase form (so also via the Kelvin-sign letterform of k),
hash-led string, structured object — returns an HSBK without raising;
every other input fails: with the invalid color format error, except for
strings whose lowercase form is constructor or the proto accessor name,
which hit an inherited property of the table literal and raise a TypeError
from the tuple destructuring instead. -/
theorem c7_prototype_error_paths :
    ∀ c : ColorInput,
      (acceptedShape c = true → ∃ hsbk, parseColor c = .ok hsbk) ∧
      (acceptedShape c = false → hitsProtoKey c = false →
        parseColor c = .error "Invalid color format") ∧
      (hitsProtoKey c = true →
        parseColor c = .error "TypeError: namedColors[colorKey] is not iterable") := by
  intro c
  cases c with
  | str s =>
    cases hlk : namedColors.lookup (jsToLowerCase s) with
    | some v =>
      refine ⟨?_, ?_, ?_⟩
      · intro _
        exact ⟨{ hue := some v.1, saturation := some v.2.1,
                 brightness := some v.2.2.1, kelvin := some v.2.2.2 },
          by simp [parseColor, hlk]⟩
      · intro hacc
        simp [acceptedShape, hlk] at hacc
      · intro hpk
        simp only [hitsProtoKey, Bool.or_eq_true, decide_eq_true_eq] at hpk
        rcases hpk with hc | hc
        · rw [hc, (by decide : namedColors.lookup ("constructor" : String) = none)] at hlk
          exact Option.noConfusion hlk
        · rw [hc, (by decide : namedColors.lookup ("__proto__" : String) = none)] at hlk
          exact Option.noConfusion hlk
    | none =>
      by_cases hpk : jsToLowerCase s = "constructor" ∨ jsToLowerCase s = "__proto__"
      · refine ⟨?_, ?_, ?_⟩
        · intro hacc
          simp only [acceptedShape, hlk, Option.isSome_none, Bool.false_or] at hacc
          exact absurd hpk (startsWithHash_not_proto hacc)
        · intro _ hnpk
          simp only [hitsProtoKey, Bool.or_eq_false_iff, decide_eq_false_iff_not] at hnpk
          rcases hpk with hc | hc
          · exact absurd hc hnpk.1
          · exact absurd hc hnpk.2
        · intro _
          simp only [parseColor, hlk]
          rw [if_pos hpk]
      · cases hsw : startsWithHash s with
        | true =>
          refine ⟨?_, ?_, ?_⟩
          · intro _
            exact ⟨parseColorHex s, by simp [parseColor, hlk, hpk, hsw]⟩
          · intro hacc
            simp [acceptedShape, hlk, hsw] at hacc
          · intro hp
            simp only [hitsProtoKey, Bool.or_eq_true, decide_eq_true_eq] at hp
            exact absurd hp hpk
        | false =>
          refine ⟨?_, ?_, ?_⟩
          · intro hacc
            simp [acceptedShape, hlk, hsw] at hacc
          · intro _ _
            simp [parseColor, hlk, hpk, hsw]
          · intro hp
            simp only [hitsProtoKey, Bool.or_eq_true, decide_eq_true_eq] at hp
            exact absurd hp hpk
  | obj h s b k =>
    exact ⟨fun _ => ⟨_, rfl⟩, fun hacc => by simp [acceptedShape] at hacc,
      fun hp => by simp [hitsProtoKey] at hp⟩
  | null => exact ⟨fun hacc => by simp [acceptedShape] at hacc, fun _ _ => rfl,
      fun hp => by simp [hitsProtoKey] at hp⟩
  | other => exact ⟨fun hacc => by simp [acceptedShape] at hacc, fun _ _ => rfl,
      fun hp => by simp [hitsProtoKey] at hp⟩

/-- C7 amended witness: the Kelvin-sign spelling of pink is accepted, null
fails with the invalid color format error, and CONSTRUCTOR raises the
TypeError. -/
theorem c7_prototype_error_paths_witness :
    (∃ hsbk, parseColor (.str (String.mk ['P', 'I', 'N', Char.ofNat 8490])) = .ok hsbk) ∧
    parseColor .null = .error "Invalid color format" ∧
    parseColor (.str "CONSTRUCTOR") =
      .error "TypeError: namedColors[colorKey] is not iterable" :=
  ⟨(c7_prototype_error_paths (.str (String.mk ['P', 'I', 'N', Char.ofNat 8490]))).1 (by decide),
    (c7_prototype_error_paths .null).2.1 rfl rfl,
    (c7_prototype_error_paths (.str "CONSTRUCTOR")).2.2 (by decide)⟩

/-- C9 counterexample: the structured object whose saturation is the
nonzero fraction 1/200000 still yields saturation 0 (the scaled value
rounds down to zero), so an object input can produce saturation 0. -/
theorem c9_counterexample :
    ((1 : ℚ) / 200000 ≠ 0) ∧
    parseColor (.obj none (some (1 / 200000)) none none) =
      .ok { hue := some 0, saturation := some 0, brightness := some 65535, kelvin := some 3500 } := by
  constructor
  · norm_num
  · norm_num [parseColor, jsTruthy, jsRound, Except.ok.injEq, HSBK.mk.injEq]

/-- C9 (amended): in the structured-object path a saturation or brightness
channel given as 0 is replaced by the default 65535 exactly like an absent
channel, and for integer channel values — the only ones the tool schema
admits — the result can never carry saturation 0 or brightness 0 (a
fractional channel below 1/131070 can, as the counterexample shows). -/
theorem c9_object_zero_channels (hch kch : Option ℚ) (s b : Option ℕ) (r : HSBK)
    (hr : parseColor (.obj hch (s.map fun (n : ℕ) => (n : ℚ)) (b.map fun (n : ℕ) => (n : ℚ)) kch) = .ok r) :
    ((s = some 0 ∨ s = none) → r.saturation = some 65535) ∧
    ((b = some 0 ∨ b = none) → r.brightness = some 65535) ∧
    r.saturation ≠ some 0 ∧ r.brightness ≠ some 0 := by
  have hsat : r.saturation =
      some (if jsTruthy (s.map fun (n : ℕ) => (n : ℚ))
        then ((jsRound ((s.map fun (n : ℕ) => (n : ℚ)).getD 0 * 65535) : ℤ) : ℚ) else 65535) := by
    simp only [parseColor, Except.ok.injEq] at hr
    rw [hr.symm]
  have hbri : r.brightness =
      some (if jsTruthy (b.map fun (n : ℕ) => (n : ℚ))
        then ((jsRound ((b.map fun (n : ℕ) => (n : ℚ)).getD 0 * 65535) : ℤ) : ℚ) else 65535) := by
    simp only [parseColor, Except.ok.injEq] at hr
    rw [hr.symm]
  have key : ∀ (o : Option ℕ) (q : Option ℚ),
      q = some (if jsTruthy (o.map fun (n : ℕ) => (n : ℚ))
        then ((jsRound ((o.map fun (n : ℕ) => (n : ℚ)).getD 0 * 65535) : ℤ) : ℚ) else 65535) →
      ((o = some 0 ∨ o = none) → q = some 65535) ∧ q ≠ some 0 := by
    intro o q hq
    subst hq
    cases o with
    | none =>
      refine ⟨fun _ => ?_, ?_⟩ <;> simp [jsTruthy]
    | some n =>
      by_cases hn : n = 0
      · subst hn
        refine ⟨fun _ => ?_, ?_⟩ <;> simp [jsTruthy]
      · have ht : jsTruthy (some ((n : ℕ) : ℚ)) = true := by
          simp [jsTruthy, hn]
        have hcast : ((n : ℚ) * 65535) = (((n * 65535 : ℕ) : ℤ) : ℚ) := by
          push_cast
          ring
        constructor
        · rintro (h0 | h0) <;> simp_all
        · simp only [ht, if_true, Option.map_some', Option.getD_some, hcast, jsRound_intCast,
            ne_eq, Option.some.injEq]
          intro hbad
          have h1 : ((n * 65535 : ℕ) : ℤ) = 0 := by exact_mod_cast hbad
          omega
  exact ⟨(key s r.saturation hsat).1, (key b r.brightness hbri).1,
    (key s r.saturation hsat).2, (key b r.brightness hbri).2⟩

/-- C9 amended witness: saturation given as 0 becomes 65535 and a
brightness of 1 cannot produce brightness 0. -/
theorem c9_object_zero_channels_witness :
    (((some 0 : Option ℕ) = some 0 ∨ (some 0 : Option ℕ) = none) →
      HSBK.saturation { hue := some 0, saturation := some 65535,
                        brightness := some 65535, kelvin := some 3500 } = some 65535) ∧
    HSBK.brightness { hue := some 0, saturation := some 65535,
                      brightness := some 65535, kelvin := some 3500 } ≠ some 0 := by
  have happ := c9_object_zero_channels none none (some 0) (some 1)
    { hue := some 0, saturation := some 65535, brightness := some 65535, kelvin := some 3500 }
    (by have hj : jsRound ((65535 : ℚ)) = 65535 := by norm_num [jsRound]
        simp [parseColor, jsTruthy, hj])
  exact ⟨happ.1, happ.2.2.2⟩

/-! Facts about selector parsing and resolution. -/

theorem splitColon_ne_nil : ∀ l : List Char, splitColon l ≠ []
  | [] => by simp [splitColon]
  | c :: rest => by
    unfold splitColon
    by_cases hc : c = ':'
    · simp [hc]
    · simp only [if_neg hc]
      cases hsp : splitColon rest with
      | nil => simp
      | cons p ps => simp

theorem splitColon_append {t : List Char} (rest : List Char) (h : ':' ∉ t) :
    splitColon (t ++ ':' :: rest) = t :: splitColon rest := by
  induction t with
  | nil => simp [splitColon]
  | cons c t ih =>
    have hc : c ≠ ':' := by
      intro hh
      exact h (hh ▸ List.mem_cons_self c t)
    have ht : ':' ∉ t := fun hm => h (List.mem_cons_of_mem c hm)
    rw [List.cons_append]
    conv_lhs => rw [splitColon]
    rw [if_neg hc, ih ht]

theorem mk_ne_all {l : List Char} (h : ':' ∈ l) : String.mk l ≠ "all" := by
  intro hh
  have hdata : l = "all".data := congrArg String.data hh
  rw [hdata] at h
  revert h
  decide

theorem includesColon_mk {l : List Char} (h : ':' ∈ l) :
    includesColon (String.mk l) = true := by
  simp only [includesColon, string_data_mk, List.any_eq_true]
  exact ⟨':', h, by simp⟩

/-- Branch characterizations of the `switch (parsed.type)`. -/
theorem selectorMatches_of_type_all (sel : Selector) (h : sel.type = "all")
    (sn : String) (info : DeviceInfo) : selectorMatches sel sn info = true := by
  unfold selectorMatches
  rw [h, if_pos rfl]

theorem selectorMatches_of_type_label (sel : Selector) (h : sel.type = "label")
    (sn : String) (info : DeviceInfo) :
    selectorMatches sel sn info = decide (info.label = sel.value) := by
  unfold selectorMatches
  rw [h, if_neg (by decide), if_neg (by decide), if_pos rfl]

theorem selectorMatches_of_type_group (sel : Selector) (h : sel.type = "group")
    (sn : String) (info : DeviceInfo) :
    selectorMatches sel sn info = decide (info.group.map StateGroup.label = sel.value) := by
  unfold selectorMatches
  rw [h, if_neg (by decide), if_neg (by decide), if_neg (by decide), if_pos rfl]

theorem selectorMatches_of_unknown_type (sel : Selector)
    (h : sel.type ∉ (["all", "serial", "label", "group", "location"] : List String))
    (sn : String) (info : DeviceInfo) : selectorMatches sel sn info = false := by
  simp only [List.mem_cons, List.not_mem_nil, or_false, not_or] at h
  obtain ⟨h1, h2, h3, h4, h5⟩ := h
  unfold selectorMatches
  rw [if_neg h1, if_neg h2, if_neg h3, if_neg h4, if_neg h5]

/-- The parse of a two-colon selector: type before the first colon, value
between the colons, the tail discarded. -/
theorem parseSelector_two_colons (t v r : List Char) (ht : ':' ∉ t) (hv : ':' ∉ v) :
    parseSelector (some (String.mk (t ++ ':' :: (v ++ ':' :: r)))) =
      { type := String.mk t, value := some (String.mk v) } := by
  have hmem : ':' ∈ t ++ ':' :: (v ++ ':' :: r) :=
    List.mem_append_right _ (List.mem_cons_self _ _)
  have hneall := mk_ne_all hmem
  have hinc := includesColon_mk hmem
  unfold parseSelector
  rw [Option.getD_some, if_neg hneall, if_pos hinc]
  simp only [string_data_mk, splitColon_append (v ++ ':' :: r) ht, splitColon_append r hv,
    List.headD_cons, List.getD_cons_succ, List.getD_cons_zero]

/-- C10: a selector with two colons keeps only the part between the first
and second colon as the value — shown concretely on label:a:b and in
general — so a label or group whose name contains a colon never matches
the label/group selector built from it. -/
theorem c10_second_colon_discarded :
    parseSelector (some "label:a:b") = { type := "label", value := some "a" } ∧
    (∀ t v r : List Char, ':' ∉ t → ':' ∉ v →
      parseSelector (some (String.mk (t ++ ':' :: (v ++ ':' :: r)))) =
        { type := String.mk t, value := some (String.mk v) }) ∧
    (∀ (v r : List Char) (sn : String) (info : DeviceInfo), ':' ∉ v →
      info.label = some (String.mk (v ++ ':' :: r)) →
      selectorMatches (parseSelector (some (String.mk ("label".data ++ ':' :: (v ++ ':' :: r)))))
        sn info = false) ∧
    (∀ (v r : List Char) (sn : String) (info : DeviceInfo), ':' ∉ v →
      info.group.map StateGroup.label = some (String.mk (v ++ ':' :: r)) →
      selectorMatches (parseSelector (some (String.mk ("group".data ++ ':' :: (v ++ ':' :: r)))))
        sn info = false) := by
  refine ⟨by decide, parseSelector_two_colons, ?_, ?_⟩
  · intro v r sn info hv hlabel
    rw [parseSelector_two_colons "label".data v r (by decide) hv,
      selectorMatches_of_type_label _ rfl]
    rw [hlabel]
    simp only [decide_eq_false_iff_not]
    intro hbad
    have hlists : v ++ ':' :: r = v := congrArg String.data (Option.some.inj hbad)
    have hlen := congrArg List.length hlists
    simp at hlen
  · intro v r sn info hv hgroup
    rw [parseSelector_two_colons "group".data v r (by decide) hv,
      selectorMatches_of_type_group _ rfl]
    rw [hgroup]
    simp only [decide_eq_false_iff_not]
    intro hbad
    have hlists : v ++ ':' :: r = v := congrArg String.data (Option.some.inj hbad)
    have hlen := congrArg List.length hlists
    simp at hlen

/-- C10 witness for the general clause, at the concrete lists of z:a:bc. -/
theorem c10_second_colon_discarded_witness :
    parseSelector (some (String.mk (['z'] ++ ':' :: (['a'] ++ ':' :: ['b', 'c'])))) =
      { type := String.mk ['z'], value := some (String.mk ['a']) } :=
  c10_second_colon_discarded.2.1 ['z'] ['a'] ['b', 'c'] (by decide) (by decide)

/-- C4: parseSelector maps an absent input and the literal all to the
all-selector, group:Kitchen to a group selector with value Kitchen, the
bare serial d073d5112233 to a serial selector — and in general every
colon-free non-all string to a serial selector carrying that string. -/
theorem c4_parse_selector :
    parseSelector none = { type := "all", value := none } ∧
    parseSelector (some "all") = { type := "all", value := none } ∧
    parseSelector (some "group:Kitchen") = { type := "group", value := some "Kitchen" } ∧
    parseSelector (some "d073d5112233") = { type := "serial", value := some "d073d5112233" } ∧
    (∀ s : String, s ≠ "all" → includesColon s = false →
      parseSelector (some s) = { type := "serial", value := some s }) := by
  refine ⟨by decide, by decide, by decide, by decide, ?_⟩
  intro s h1 h2
  unfold parseSelector
  rw [Option.getD_some, if_neg h1, if_neg (by rw [h2]; exact Bool.false_ne_true)]

/-- C4 witness for the bare-string clause at a fresh colon-free string. -/
theorem c4_parse_selector_witness :
    parseSelector (some "kitchenlamp") = { type := "serial", value := some "kitchenlamp" } :=
  c4_parse_selector.2.2.2.2 "kitchenlamp" (by decide) (by decide)

/-- C8 counterexample: the prefix all is not one of serial, label, group,
location, yet the selector all:Kitchen parses with type all and resolves to
every registry device instead of the empty set. -/
theorem c8_counterexample :
    parseSelector (some "all:Kitchen") = { type := "all", value := some "Kitchen" } ∧
    ("all" : String) ∉ (["serial", "label", "group", "location"] : List String) ∧
    getMatchingDevices (fun sn => some { serialNumber := sn })
      [("d073d5112233", {})] "all:Kitchen" ≠ [] := by
  refine ⟨by decide, by decide, by decide⟩

/-- C8 (amended): a selector whose prefix is not one of all, serial, label,
group or location parses without error (e.g. zone:Kitchen) and resolves to
the empty device set against every registry snapshot. -/
theorem c8_unknown_type_empty :
    parseSelector (some "zone:Kitchen") = { type := "zone", value := some "Kitchen" } ∧
    (∀ (devGet : String → Option Device) (registry : List (String × DeviceInfo)) (sel : String),
      (parseSelector (some sel)).type ∉
        (["all", "serial", "label", "group", "location"] : List String) →
      getMatchingDevices devGet registry sel = []) := by
  refine ⟨by decide, ?_⟩
  intro devGet registry sel hna
  unfold getMatchingDevices
  have hm : ∀ p : String × DeviceInfo,
      selectorMatches (parseSelector (some sel)) p.1 p.2 = false :=
    fun p => selectorMatches_of_unknown_type _ hna p.1 p.2
  induction registry with
  | nil => rfl
  | cons p t ih =>
    rw [List.filterMap_cons, hm p]
    simpa using ih

/-- C8 amended witness at the concrete selector zone:Kitchen. -/
theorem c8_unknown_type_empty_witness :
    getMatchingDevices (fun sn => some { serialNumber := sn })
      [("d073d5112233", {})] "zone:Kitchen" = [] :=
  c8_unknown_type_empty.2 (fun sn => some { serialNumber := sn })
    [("d073d5112233", {})] "zone:Kitchen" (by decide)

/-- C3 counterexample: a snapshot with one entry whose live `devices.get`
rejects resolves the all selector to zero devices, not one. -/
theorem c3_counterexample :
    (getMatchingDevices (fun _ => none) [("d073d5112233", {})] "all").length ≠
      ([("d073d5112233", ({} : DeviceInfo))] : List (String × DeviceInfo)).length := by
  decide

/-- C3 (amended): resolving the all selector returns at most one device per
snapshot entry, and exactly one per entry when every matching serial's
live registry lookup succeeds; an entry whose `devices.get` rejects is
dropped. -/
theorem c3_resolve_all_length
    (devGet : String → Option Device) (registry : List (String × DeviceInfo)) :
    (getMatchingDevices devGet registry "all").length ≤ registry.length ∧
    ((∀ p ∈ registry, (devGet p.1).isSome = true) →
      (getMatchingDevices devGet registry "all").length = registry.length) := by
  have hm : ∀ p : String × DeviceInfo,
      selectorMatches (parseSelector (some "all")) p.1 p.2 = true :=
    fun p => selectorMatches_of_type_all _ (by decide) p.1 p.2
  unfold getMatchingDevices
  constructor
  · exact List.length_filterMap_le _ _
  · intro hall
    induction registry with
    | nil => rfl
    | cons p t ih =>
      rw [List.filterMap_cons, hm p]
      obtain ⟨d, hd⟩ := Option.isSome_iff_exists.mp (hall p (List.mem_cons_self p t))
      rw [if_pos rfl, hd]
      simp only [Option.map_some', List.length_cons]
      rw [ih (fun q hq => hall q (List.mem_cons_of_mem p hq))]

/-- C3 amended witness: a two-entry snapshot whose lookups both succeed
resolves to exactly two devices. -/
theorem c3_resolve_all_length_witness :
    (getMatchingDevices (fun sn => some { serialNumber := sn })
      [("d073d5112233", {}), ("d073d5445566", {})] "all").length =
    ([("d073d5112233", ({} : DeviceInfo)), ("d073d5445566", ({} : DeviceInfo))] :
      List (String × DeviceInfo)).length :=
  (c3_resolve_all_length (fun sn => some { serialNumber := sn })
    [("d073d5112233", {}), ("d073d5445566", {})]).2 (by decide)

/-- C1: every batch handler returns exactly one result per selected device,
in batch order; the j-th result is a function of that device's own remote
outcomes alone, so a sibling failure cannot remove or alter it; and a
device whose remote call rejects is reported success false with the error
text filled in. -/
theorem c1_dispatch_per_device (matching : List MatchEntry) :
    (∀ (send : String → Except String Unit) (power : String),
      (setLightsPowerResults send power matching).length = matching.length) ∧
    (∀ (getColor : String → Except String Color) (setColorSend : String → Except String Unit)
        (b d : ℚ),
      (setBrightnessResults getColor setColorSend b d matching).length = matching.length) ∧
    (∀ (send : String → Except String Unit) (pc : HSBK),
      (setColorResults send pc matching).length = matching.length) ∧
    (∀ (getPower : String → Except String ℤ) (setPower : String → Except String Unit),
      (toggleResults getPower setPower matching).length = matching.length) ∧
    (∀ (j : ℕ) (e : MatchEntry), matching[j]? = some e →
      (∀ (send : String → Except String Unit) (power : String),
        (∀ err, send e.serialNumber = .error err →
          (setLightsPowerResults send power matching)[j]? =
            some { serialNumber := e.serialNumber, success := false, error := some err }) ∧
        (send e.serialNumber = .ok () →
          (setLightsPowerResults send power matching)[j]? =
            some { serialNumber := e.serialNumber, success := true, power := some power })) ∧
      (∀ (send : String → Except String Unit) (pc : HSBK) (err : String),
        send e.serialNumber = .error err →
          (setColorResults send pc matching)[j]? =
            some { serialNumber := e.serialNumber, success := false, error := some err }) ∧
      (∀ (getColor : String → Except String Color) (setColorSend : String → Except String Unit)
          (b d : ℚ),
        (∀ err, getColor e.serialNumber = .error err →
          ((setBrightnessResults getColor setColorSend b d matching)[j]?.map Prod.fst) =
            some { serialNumber := e.serialNumber, success := false, error := some err }) ∧
        (∀ c err, getColor e.serialNumber = .ok c → setColorSend e.serialNumber = .error err →
          ((setBrightnessResults getColor setColorSend b d matching)[j]?.map Prod.fst) =
            some { serialNumber := e.serialNumber, success := false, error := some err })) ∧
      (∀ (getPower : String → Except String ℤ) (setPower : String → Except String Unit),
        (∀ err, getPower e.serialNumber = .error err →
          (toggleResults getPower setPower matching)[j]? =
            some { serialNumber := e.serialNumber, success := false, error := some err }) ∧
        (∀ p err, getPower e.serialNumber = .ok p → setPower e.serialNumber = .error err →
          (toggleResults getPower setPower matching)[j]? =
            some { serialNumber := e.serialNumber, success := false, error := some err }))) := by
  refine ⟨?_, ?_, ?_, ?_, ?_⟩
  · intro send power
    simp [setLightsPowerResults]
  · intro getColor setColorSend b d
    simp [setBrightnessResults]
  · intro send pc
    simp [setColorResults]
  · intro getPower setPower
    simp [toggleResults]
  · intro j e hj
    refine ⟨?_, ?_, ?_, ?_⟩
    · intro send power
      constructor
      · intro err herr
        simp [setLightsPowerResults, List.getElem?_map, hj, herr]
      · intro hok
        simp [setLightsPowerResults, List.getElem?_map, hj, hok]
    · intro send pc err herr
      simp [setColorResults, List.getElem?_map, hj, herr]
    · intro getColor setColorSend b d
      constructor
      · intro err herr
        simp [setBrightnessResults, List.getElem?_map, hj, setBrightnessStep, herr]
      · intro c err hok herr
        simp [setBrightnessResults, List.getElem?_map, hj, setBrightnessStep, hok, herr]
    · intro getPower setPower
      constructor
      · intro err herr
        simp [toggleResults, List.getElem?_map, hj, toggleStep, herr]
      · intro p err hok herr
        simp [toggleResults, List.getElem?_map, hj, toggleStep, hok, herr]

/-- C1 witness: a three-device power batch where only the middle device's
remote call rejects yields three results, the middle one success false with
the error text, its siblings success true. -/
theorem c1_dispatch_per_device_witness :
    (setLightsPowerResults
        (fun sn => if sn = "d2" then .error "boom" else .ok ()) "on"
        [{ device := { serialNumber := "d1" }, serialNumber := "d1", info := {} },
         { device := { serialNumber := "d2" }, serialNumber := "d2", info := {} },
         { device := { serialNumber := "d3" }, serialNumber := "d3", info := {} }]).length = 3 ∧
    (setLightsPowerResults
        (fun sn => if sn = "d2" then .error "boom" else .ok ()) "on"
        [{ device := { serialNumber := "d1" }, serialNumber := "d1", info := {} },
         { device := { serialNumber := "d2" }, serialNumber := "d2", info := {} },
         { device := { serialNumber := "d3" }, serialNumber := "d3", info := {} }])[1]? =
      some { serialNumber := "d2", success := false, error := some "boom" } ∧
    (setLightsPowerResults
        (fun sn => if sn = "d2" then .error "boom" else .ok ()) "on"
        [{ device := { serialNumber := "d1" }, serialNumber := "d1", info := {} },
         { device := { serialNumber := "d2" }, serialNumber := "d2", info := {} },
         { device := { serialNumber := "d3" }, serialNumber := "d3", info := {} }])[0]? =
      some { serialNumber := "d1", success := true, power := some "on" } := by
  refine ⟨?_, ?_, ?_⟩
  · exact (c1_dispatch_per_device _).1 _ "on"
  · exact (((c1_dispatch_per_device _).2.2.2.2 1
      { device := { serialNumber := "d2" }, serialNumber := "d2", info := {} }
      (by decide)).1 _ "on").1 "boom" (by decide)
  · exact (((c1_dispatch_per_device _).2.2.2.2 0
      { device := { serialNumber := "d1" }, serialNumber := "d1", info := {} }
      (by decide)).1 _ "on").2 (by decide)

/-- C2: the per-device step of the brightness batch reads the color first;
when the read yields a color, exactly one SetColor command is issued
carrying the read hue, saturation and kelvin unchanged together with the
brightness scaled by 65535 and the duration in milliseconds; when the read
rejects, the device's result is success false with that error and no
SetColor command is issued for it. -/
theorem c2_brightness_read_then_write (getColor : String → Except String Color)
    (setColorSend : String → Except String Unit) (brightness duration : ℚ)
    (matching : List MatchEntry) (j : ℕ) (e : MatchEntry)
    (hj : matching[j]? = some e) :
    (∀ c, getColor e.serialNumber = .ok c →
      ∃ res, (setBrightnessResults getColor setColorSend brightness duration matching)[j]? =
          some (res,
            [{ hue := c.hue, saturation := c.saturation,
               brightness := jsRound (brightness * 65535), kelvin := c.kelvin,
               duration := jsRound (duration * 1000) }]) ∧
        res.serialNumber = e.serialNumber) ∧
    (∀ err, getColor e.serialNumber = .error err →
      (setBrightnessResults getColor setColorSend brightness duration matching)[j]? =
        some ({ serialNumber := e.serialNumber, success := false, error := some err }, [])) := by
  constructor
  · intro c hok
    cases hw : setColorSend e.serialNumber with
    | ok u =>
      refine ⟨{ serialNumber := e.serialNumber, success := true,
                brightness := some brightness }, ?_, rfl⟩
      simp [setBrightnessResults, List.getElem?_map, hj, setBrightnessStep, hok, hw]
    | error werr =>
      refine ⟨{ serialNumber := e.serialNumber, success := false, error := some werr }, ?_, rfl⟩
      simp [setBrightnessResults, List.getElem?_map, hj, setBrightnessStep, hok, hw]
  · intro err herr
    simp [setBrightnessResults, List.getElem?_map, hj, setBrightnessStep, herr]

/-- C2 witness: one device whose read yields a color and another whose read
rejects. -/
theorem c2_brightness_read_then_write_witness :
    (∃ res, (setBrightnessResults
        (fun _ => .ok { hue := 100, saturation := 200, brightness := 300,
                        kelvin := 3500, power := 1 })
        (fun _ => .ok ()) (1 / 2) 1
        [{ device := { serialNumber := "d1" }, serialNumber := "d1", info := {} }])[0]? =
        some (res,
          [{ hue := 100, saturation := 200, brightness := jsRound (1 / 2 * 65535),
             kelvin := 3500, duration := jsRound (1 * 1000) }]) ∧
      res.serialNumber = "d1") ∧
    (setBrightnessResults
        (fun _ => .error "timeout") (fun _ => .ok ()) (1 / 2) 1
        [{ device := { serialNumber := "d1" }, serialNumber := "d1", info := {} }])[0]? =
      some ({ serialNumber := "d1", success := false, error := some "timeout" }, []) := by
  constructor
  · exact (c2_brightness_read_then_write _ _ (1 / 2) 1 _ 0
      { device := { serialNumber := "d1" }, serialNumber := "d1", info := {} } rfl).1
      { hue := 100, saturation := 200, brightness := 300, kelvin := 3500, power := 1 } rfl
  · exact (c2_brightness_read_then_write _ _ (1 / 2) 1 _ 0
      { device := { serialNumber := "d1" }, serialNumber := "d1", info := {} } rfl).2
      "timeout" rfl

end LifxMcp
